import Mathlib

/-!
Shallow embedding of the mandelbrot-bench repository (MandelbrotWidget.cpp,
MandelbrotWidget.h, MainWindow.cpp).  Machine `double` arithmetic is embedded
as exact rational arithmetic (ℚ); comparisons of the form `sqrt x > 2` in the
source are embedded as their exact equivalents `x > 4` (valid since both sides
are nonnegative).  C++ `int` arithmetic on escape counts (always in 0..100) and
on the colour formulas (always nonnegative) is embedded as ℕ with truncating
division.
-/

namespace MandelbrotBench

/-- A complex sample, `std::complex<double>` in the source (re, im). -/
structure Complex where
  re : ℚ
  im : ℚ
deriving DecidableEq, Repr

/-- `z * z` for `std::complex<double>`: `std::pow(zSquaredPlusC, 2)` in
`calculateMandelbrot`. -/
def csq (z : Complex) : Complex :=
  ⟨z.re * z.re - z.im * z.im, z.re * z.im + z.im * z.re⟩

/-- Complex addition, `+ c` in the kernel loop. -/
def cadd (a b : Complex) : Complex :=
  ⟨a.re + b.re, a.im + b.im⟩

/-- `pow(real,2) + pow(imag,2)`: the squared magnitude tested against 4 in
both kernels; also `std::abs(c) > 2 ↔ normSq c > 4`. -/
def normSq (c : Complex) : ℚ :=
  c.re * c.re + c.im * c.im

/-- The body of the `for (int i = 0; i < 100; ++i)` loop of
`calculateMandelbrot`: `z := z² + c`, return `i + 1` on escape, recurse
otherwise, return 0 when the loop bound is exhausted.  `fuel` counts the
remaining iterations (`100 - i` at entry). -/
def mandelGo (c : Complex) : Complex → ℕ → ℕ → ℕ
  | _, _, 0 => 0
  | z, i, fuel + 1 =>
    let z' := cadd (csq z) c
    if 4 < normSq z' then i + 1 else mandelGo c z' (i + 1) fuel

/-- `int calculateMandelbrot(std::complex<double> c)` (MandelbrotWidget.cpp):
if `|c| > 2` return 1, else run the escape loop from `zSquaredPlusC = c` for
100 iterations. -/
def calculateMandelbrot (c : Complex) : ℕ :=
  if 4 < normSq c then 1 else mandelGo c c 0 100

/-- An OpenCL `double2` value `(x, y)` as used by the device kernel. -/
structure DoublePair where
  x : ℚ
  y : ℚ
deriving DecidableEq, Repr

/-- The loop of the BOOST_COMPUTE_FUNCTION `calculateMandelbrotCompute`:
`newzc.x = zx*zx - zy*zy + c.x; newzc.y = 2*zx*zy + c.y`, escape test
`zx*zx + zy*zy > 4`, return `i + 1` on escape, 0 on exhaustion. -/
def mandelComputeGo (c : DoublePair) : DoublePair → ℕ → ℕ → ℕ
  | _, _, 0 => 0
  | z, i, fuel + 1 =>
    let zx := z.x * z.x - z.y * z.y + c.x
    let zy := 2 * z.x * z.y + c.y
    if 4 < zx * zx + zy * zy then i + 1
    else mandelComputeGo c ⟨zx, zy⟩ (i + 1) fuel

/-- `BOOST_COMPUTE_FUNCTION(int, calculateMandelbrotCompute, ...)`: the device
kernel; `sqrt(c.x*c.x + c.y*c.y) > 2` is embedded as its exact equivalent
`c.x*c.x + c.y*c.y > 4`. -/
def calculateMandelbrotCompute (c : DoublePair) : ℕ :=
  if 4 < c.x * c.x + c.y * c.y then 1 else mandelComputeGo c c 0 100

/-- The spec-side orbit: `z₀ = c, z_{n+1} = z_n² + c`. -/
def orbit (c : Complex) : ℕ → Complex
  | 0 => c
  | n + 1 => cadd (csq (orbit c n)) c

/-- `MandelbrotWidget::RenderType`. -/
inductive RenderType
  | CpuSingleThread
  | CpuMultiThread
  | Gpu
deriving DecidableEq, Repr

/-- `MandelbrotWidget::FractalView`. -/
inductive FractalView
  | EntireSet
  | LeftSpike
deriving DecidableEq, Repr

/-- The complex sample pushed for pixel `(row, col)` in the grid loop of
`MandelbrotWidget::rerender` (the `switch (m_view)`): for `EntireSet`
`{-2.5 + (4.0 * row / m_size), -2.0 + (4.0 * col / m_size)}`; for `LeftSpike`
`{-1.7 + (0.25 * row / m_size), -0.125 + (0.25 * col / m_size)}`. -/
def samplePoint (view : FractalView) (size row col : ℕ) : Complex :=
  match view with
  | .EntireSet => ⟨-2.5 + (4 * row / size), -2 + (4 * col / size)⟩
  | .LeftSpike => ⟨-1.7 + (0.25 * row / size), -0.125 + (0.25 * col / size)⟩

/-- One iteration of the inner `for (int col = 0; ...)` loop: the
(pixel, sample) pairs pushed for a fixed `row`. -/
def gridRow (view : FractalView) (size row : ℕ) : List ((ℕ × ℕ) × Complex) :=
  (List.range size).map fun col => ((row, col), samplePoint view size row col)

/-- The double loop of `MandelbrotWidget::rerender` that fills the parallel
vectors `pixels` and `points`, fused into one list of (pixel, sample) pairs:
outer loop over `row`, inner over `col` (row-major). -/
def generateGrid (size : ℕ) (view : FractalView) : List ((ℕ × ℕ) × Complex) :=
  (List.range size).flatMap (gridRow view size)

/-- The `pixels` vector of `rerender`. -/
def gridPixels (size : ℕ) (view : FractalView) : List (ℕ × ℕ) :=
  (generateGrid size view).map Prod.fst

/-- The `points` vector of `rerender`. -/
def gridPoints (size : ℕ) (view : FractalView) : List Complex :=
  (generateGrid size view).map Prod.snd

/-- The Result Vector computed by the three strategy branches of `rerender`
on their success path:
`CpuSingleThread`: `for i: results[i] = calculateMandelbrot(points[i])`;
`CpuMultiThread`: `QtConcurrent::blockingMapped(points, calculateMandelbrot)`
(an order-preserving parallel map);
`Gpu`: `compute::transform(points, results, calculateMandelbrotCompute)`
(an order-preserving device map) applied to each sample `(re, im)`. -/
def evaluate : RenderType → List Complex → List ℕ
  | .CpuSingleThread, points => points.map calculateMandelbrot
  | .CpuMultiThread, points => points.map calculateMandelbrot
  | .Gpu, points => points.map fun c => calculateMandelbrotCompute ⟨c.re, c.im⟩

/-- The data of a `boost::compute::program_build_failure` caught on the Gpu
path of `rerender`. -/
structure BuildFailure where
  buildLog : String
  what : String
  errorCode : Int
  errorString : String
deriving DecidableEq, Repr

/-- The `try { ... } catch (program_build_failure) { ... }` block of the Gpu
branch of `rerender`.  `std::vector<int> results(points.size())` is
zero-initialised; on success `compute::transform` overwrites it with the
device kernel's outputs; on failure the four diagnostics are printed
(`build_log`, `what`, `error_code`, `error_string`) and `results` keeps its
zero fill.  Returns (results, diagnostics). -/
def gpuEvaluateCaught (env : Option BuildFailure) (points : List Complex) :
    List ℕ × List String :=
  let results := List.replicate points.length 0
  match env with
  | none => (points.map fun c => calculateMandelbrotCompute ⟨c.re, c.im⟩, [])
  | some f => (results, [f.buildLog, f.what, toString f.errorCode, f.errorString])

/-- Strategy dispatch of `rerender` including the Gpu catch path. -/
def evaluateWith (rt : RenderType) (env : Option BuildFailure)
    (points : List Complex) : List ℕ × List String :=
  match rt with
  | .Gpu => gpuEvaluateCaught env points
  | rt => (evaluate rt points, [])

/-- An RGB triple as built by `QColor{r, g, b}`. -/
structure Color where
  r : ℕ
  g : ℕ
  b : ℕ
deriving DecidableEq, Repr

/-- `static_cast<int>(k / 0.8)` for a nonnegative int `k`, embedded exactly:
`k / (4/5)` truncated toward zero, i.e. `(5 * k) / 4` in ℕ. -/
def div08 (k : ℕ) : ℕ :=
  5 * k / 4

/-- The colour chosen for escape count `results[i]` in the paint loop of
`rerender` (the `switch (m_renderType)` inside `for (int i = 0; ...)`):
count 0 paints `QColor{0, 0, 0}`; otherwise each channel is
`255 - min(static_cast<int>(255 / results[i] / d) [+ 50], 255)` with the
divisor/offset pattern of the matching `RenderType` case. -/
def colorFor (rt : RenderType) (count : ℕ) : Color :=
  if count = 0 then ⟨0, 0, 0⟩
  else
    match rt with
    | .CpuSingleThread =>
        ⟨255 - min (255 / count / 4) 255,
         255 - min (div08 (255 / count) + 50) 255,
         255 - min (div08 (255 / count) + 50) 255⟩
    | .CpuMultiThread =>
        ⟨255 - min (div08 (255 / count) + 50) 255,
         255 - min (255 / count / 4 + 50) 255,
         255 - min (div08 (255 / count) + 50) 255⟩
    | .Gpu =>
        ⟨255 - min (div08 (255 / count) + 50) 255,
         255 - min (div08 (255 / count) + 50) 255,
         255 - min (255 / count / 4 + 50) 255⟩

/-- The paint loop of `rerender`: pixel `pixels[i]` receives the colour of
`results[i]`. -/
def paint (rt : RenderType) (pixels : List (ℕ × ℕ)) (results : List ℕ) :
    List ((ℕ × ℕ) × Color) :=
  pixels.zip (results.map (colorFor rt))

/-- The observable state of one `MandelbrotWidget` (one render session):
`m_renderType`, `m_size`, `m_doneRendering`, the debug label text, the pixmap
contents, and `m_view`. -/
structure WidgetState where
  renderType : RenderType
  size : ℕ
  doneRendering : Bool
  debugText : String
  image : List ((ℕ × ℕ) × Color)
  view : FractalView
deriving DecidableEq, Repr

/-- `bool rendering() const { return !m_doneRendering; }`
(MandelbrotWidget.h). -/
def rendering (s : WidgetState) : Bool :=
  !s.doneRendering

/-- `void MandelbrotWidget::setView(FractalView view) { m_view = view; }`. -/
def setView (s : WidgetState) (view : FractalView) : WidgetState :=
  { s with view := view }

/-- The timing text set on `m_debugLabel` at the end of the render body
(`"%1\n%2x%2 px\n%3 ns\n%4 ms\n%5 s"`), abstracted over the measured time. -/
def debugTextFor (rt : RenderType) (size : ℕ) (elapsedNanos : ℕ) : String :=
  (match rt with
   | .CpuSingleThread => "Single-threaded CPU"
   | .CpuMultiThread => "Multi-threaded CPU"
   | .Gpu => "device") ++ "\n" ++ toString size ++ "x" ++ toString size
    ++ " px\n" ++ toString elapsedNanos ++ " ns"

/-- The synchronous prefix of `MandelbrotWidget::rerender`:
`m_doneRendering = false; m_debugLabel->setText({});` executed before the
asynchronous job is launched. -/
def rerenderEntry (s : WidgetState) : WidgetState :=
  { s with doneRendering := false, debugText := "" }

/-- The states the widget passes through during the asynchronous render body,
in source order, starting from the post-entry state `s`:
after the strategy runs and `m_debugLabel->setText(...)` executes; after the
paint loop fills the pixmap; after `m_doneRendering = true`. -/
def renderTrace (env : Option BuildFailure) (elapsedNanos : ℕ)
    (s : WidgetState) : List WidgetState :=
  let results := (evaluateWith s.renderType env (gridPoints s.size s.view)).1
  let s1 := { s with debugText := debugTextFor s.renderType s.size elapsedNanos }
  let s2 := { s1 with image := paint s.renderType (gridPixels s.size s.view) results }
  let s3 := { s2 with doneRendering := true }
  [s, s1, s2, s3]

/-- The widget state at the end of the asynchronous render body launched by
`rerender` (grid generation, strategy dispatch, debug label update, paint
loop, `m_doneRendering = true`). -/
def renderBody (env : Option BuildFailure) (elapsedNanos : ℕ)
    (s : WidgetState) : WidgetState :=
  { s with
    debugText := debugTextFor s.renderType s.size elapsedNanos,
    image := paint s.renderType (gridPixels s.size s.view)
      (evaluateWith s.renderType env (gridPoints s.size s.view)).1,
    doneRendering := true }

/-- The diagnostics printed by the render body (nonempty only on the Gpu
catch path). -/
def renderDiagnostics (env : Option BuildFailure) (s : WidgetState) :
    List String :=
  (evaluateWith s.renderType env (gridPoints s.size s.view)).2

/-- A sample widget state used to instantiate the session theorems. -/
def sampleState : WidgetState :=
  ⟨.CpuSingleThread, 1, true, "old", [], .EntireSet⟩

/-- A sample Gpu-session widget state. -/
def gpuSampleState : WidgetState :=
  ⟨.Gpu, 1, false, "", [], .EntireSet⟩

/-- A sample `program_build_failure`. -/
def sampleFailure : BuildFailure :=
  ⟨"build log", "what", 42, "error string"⟩

/-! ### Equivalence of the host and device kernels -/

lemma mandelComputeGo_eq_mandelGo (c : Complex) :
    ∀ (fuel : ℕ) (z : Complex) (i : ℕ),
      mandelComputeGo ⟨c.re, c.im⟩ ⟨z.re, z.im⟩ i fuel = mandelGo c z i fuel := by
  intro fuel
  induction fuel with
  | zero => intro z i; rfl
  | succ fuel ih =>
    intro z i
    show (if 4 < (z.re * z.re - z.im * z.im + c.re) * (z.re * z.re - z.im * z.im + c.re)
            + (2 * z.re * z.im + c.im) * (2 * z.re * z.im + c.im)
          then i + 1
          else mandelComputeGo ⟨c.re, c.im⟩
            ⟨z.re * z.re - z.im * z.im + c.re, 2 * z.re * z.im + c.im⟩ (i + 1) fuel) =
      (if 4 < normSq (cadd (csq z) c) then i + 1
        else mandelGo c (cadd (csq z) c) (i + 1) fuel)
    have hx : z.re * z.re - z.im * z.im + c.re = (cadd (csq z) c).re := by
      simp [cadd, csq]
    have hy : 2 * z.re * z.im + c.im = (cadd (csq z) c).im := by
      simp [cadd, csq]; ring
    rw [hx, hy]
    show (if 4 < normSq (cadd (csq z) c) then i + 1
          else mandelComputeGo ⟨c.re, c.im⟩ ⟨(cadd (csq z) c).re, (cadd (csq z) c).im⟩ (i + 1) fuel) = _
    split
    · rfl
    · exact ih (cadd (csq z) c) (i + 1)

lemma calculateMandelbrotCompute_eq (c : Complex) :
    calculateMandelbrotCompute ⟨c.re, c.im⟩ = calculateMandelbrot c := by
  show (if 4 < c.re * c.re + c.im * c.im then 1
        else mandelComputeGo ⟨c.re, c.im⟩ ⟨c.re, c.im⟩ 0 100) =
    (if 4 < normSq c then 1 else mandelGo c c 0 100)
  rw [show c.re * c.re + c.im * c.im = normSq c from rfl]
  split
  · rfl
  · exact mandelComputeGo_eq_mandelGo c 100 c 0

lemma evaluate_eq_map (rt : RenderType) (points : List Complex) :
    evaluate rt points = points.map calculateMandelbrot := by
  cases rt with
  | CpuSingleThread => rfl
  | CpuMultiThread => rfl
  | Gpu =>
    show points.map (fun c => calculateMandelbrotCompute ⟨c.re, c.im⟩) = _
    exact List.map_congr_left fun c _ => calculateMandelbrotCompute_eq c

/-- C1: the scalar host kernel (used by Sequential and Parallel-Map) and the
device kernel (explicit real/imaginary multiplication with sqrt-based early
exit) compute the same escape count on every complex sample, so for a fixed
grid the three execution strategies produce identical Result Vectors. -/
theorem cross_strategy_equivalence (c : Complex) (rt rt' : RenderType)
    (points : List Complex) :
    calculateMandelbrotCompute ⟨c.re, c.im⟩ = calculateMandelbrot c ∧
    evaluate rt points = evaluate rt' points := by
  refine ⟨calculateMandelbrotCompute_eq c, ?_⟩
  rw [evaluate_eq_map, evaluate_eq_map]

/-! ### The escape loop against the declarative orbit -/

lemma mandelGo_orbit_spec (c : Complex) :
    ∀ (fuel i : ℕ),
      (∃ k, k < fuel ∧ 4 < normSq (orbit c (i + k + 1)) ∧
        (∀ j, j < k → normSq (orbit c (i + j + 1)) ≤ 4) ∧
        mandelGo c (orbit c i) i fuel = i + k + 1)
      ∨ ((∀ k, k < fuel → normSq (orbit c (i + k + 1)) ≤ 4) ∧
        mandelGo c (orbit c i) i fuel = 0) := by
  intro fuel
  induction fuel with
  | zero =>
    intro i
    exact Or.inr ⟨fun k hk => absurd hk (Nat.not_lt_zero k), rfl⟩
  | succ fuel ih =>
    intro i
    have hunf : mandelGo c (orbit c i) i (fuel + 1) =
        if 4 < normSq (orbit c (i + 1)) then i + 1
        else mandelGo c (orbit c (i + 1)) (i + 1) fuel := rfl
    rw [hunf]
    by_cases h : 4 < normSq (orbit c (i + 1))
    · rw [if_pos h]
      exact Or.inl ⟨0, Nat.succ_pos fuel, h,
        fun j hj => absurd hj (Nat.not_lt_zero j), rfl⟩
    · rw [if_neg h]
      rcases ih (i + 1) with ⟨k, hk, hesc, hmin, heq⟩ | ⟨hall, heq⟩
      · refine Or.inl ⟨k + 1, Nat.succ_lt_succ hk, ?_, ?_, ?_⟩
        · have : i + (k + 1) + 1 = i + 1 + k + 1 := by omega
          rw [this]; exact hesc
        · intro j hj
          cases j with
          | zero => simpa using le_of_not_lt h
          | succ j =>
            have : i + (j + 1) + 1 = i + 1 + j + 1 := by omega
            rw [this]
            exact hmin j (by omega)
        · rw [heq]; omega
      · refine Or.inr ⟨?_, heq⟩
        intro k hk
        cases k with
        | zero => simpa using le_of_not_lt h
        | succ k =>
          have : i + (k + 1) + 1 = i + 1 + k + 1 := by omega
          rw [this]
          exact hall k (by omega)

/-- C2: the kernel returns 1 immediately when `|c| > 2` (i.e. `|c|² > 4`);
otherwise it returns `i + 1` for the first 0-indexed step `i` at which the
orbit `z₀ = c, z_{n+1} = z_n² + c` satisfies `|z_{i+1}|² > 4` within 100
steps, and 0 when no escape occurs; the result is always at most 100 (and is
a ℕ, hence in 0..100). -/
theorem kernel_escape_spec (c : Complex) :
    calculateMandelbrot c ≤ 100 ∧
    (4 < normSq c → calculateMandelbrot c = 1) ∧
    (normSq c ≤ 4 →
      (∃ i, i < 100 ∧ 4 < normSq (orbit c (i + 1)) ∧
          (∀ j, j < i → normSq (orbit c (j + 1)) ≤ 4) ∧
          calculateMandelbrot c = i + 1)
        ∨ ((∀ i, i < 100 → normSq (orbit c (i + 1)) ≤ 4) ∧
          calculateMandelbrot c = 0)) := by
  by_cases h : 4 < normSq c
  · refine ⟨?_, fun _ => ?_, fun h' => absurd h (not_lt.mpr h')⟩ <;>
      simp [calculateMandelbrot, if_pos h]
  · have hstep : calculateMandelbrot c = mandelGo c (orbit c 0) 0 100 := by
      simp [calculateMandelbrot, if_neg h, orbit]
    rcases mandelGo_orbit_spec c 100 0 with ⟨k, hk, hesc, hmin, heq⟩ | ⟨hall, heq⟩
    · refine ⟨?_, fun h4 => absurd h4 h, fun _ => Or.inl ⟨k, hk, ?_, ?_, ?_⟩⟩
      · rw [hstep, heq]; omega
      · simpa using hesc
      · intro j hj; simpa using hmin j hj
      · rw [hstep, heq]; omega
    · refine ⟨?_, fun h4 => absurd h4 h, fun _ => Or.inr ⟨?_, ?_⟩⟩
      · rw [hstep, heq]; omega
      · intro i hi; simpa using hall i hi
      · rw [hstep, heq]

/-- Closed instance of `kernel_escape_spec` at `c = 3` (escapes immediately)
and at `c = 0` (never escapes). -/
theorem kernel_escape_spec_witness :
    (4 < normSq ⟨3, 0⟩ ∧ calculateMandelbrot ⟨3, 0⟩ = 1) ∧
    (normSq (⟨0, 0⟩ : Complex) ≤ 4 ∧ calculateMandelbrot ⟨0, 0⟩ ≤ 100) :=
  ⟨⟨by with_unfolding_all decide,
    (kernel_escape_spec ⟨3, 0⟩).2.1 (by with_unfolding_all decide)⟩,
   ⟨by with_unfolding_all decide, (kernel_escape_spec ⟨0, 0⟩).1⟩⟩

/-! ### Index alignment of the strategies and of the grid -/

/-- C4: every strategy returns a Result Vector of the grid's length whose
entry at position `i` is the kernel applied to the sample at position `i`,
independent of the strategy (the parallel map and the device transform are
order-preserving). -/
theorem evaluate_index_aligned (rt : RenderType) (points : List Complex) :
    (evaluate rt points).length = points.length ∧
    (∀ i : ℕ, (evaluate rt points)[i]? = (points[i]?).map calculateMandelbrot) ∧
    ∀ env : Option BuildFailure,
      ((evaluateWith rt env points).1).length = points.length := by
  refine ⟨?_, ?_, ?_⟩
  · rw [evaluate_eq_map]; exact List.length_map _ _
  · rw [evaluate_eq_map]; exact fun i => List.getElem?_map _ _ _
  · intro env
    cases rt with
    | CpuSingleThread => exact List.length_map _ _
    | CpuMultiThread => exact List.length_map _ _
    | Gpu =>
      cases env with
      | none => exact List.length_map _ _
      | some f => exact List.length_replicate _ _

lemma flatMap_uniform_getElem? {α β : Type} (g : α → List β) (n : ℕ)
    (hn : ∀ a, (g a).length = n) :
    ∀ (l : List α) (i j : ℕ), j < n → ∀ (hi : i < l.length),
      (l.flatMap g)[i * n + j]? = (g (l.get ⟨i, hi⟩))[j]? := by
  intro l
  induction l with
  | nil => intro i j _ hi; exact absurd hi (Nat.not_lt_zero i)
  | cons a l ih =>
    intro i j hj hi
    cases i with
    | zero =>
      rw [List.flatMap_cons]
      simpa using List.getElem?_append_left (by rw [hn a]; simpa using hj)
    | succ i =>
      rw [List.flatMap_cons]
      have hmul : (i + 1) * n = i * n + n := add_one_mul i n
      have hlen : (g a).length ≤ (i + 1) * n + j := by rw [hn a, hmul]; omega
      rw [List.getElem?_append_right hlen]
      have harith : (i + 1) * n + j - (g a).length = i * n + j := by
        rw [hn a, hmul]; omega
      rw [harith]
      exact ih i j hj (by simpa using hi)

lemma gridRow_length (view : FractalView) (size row : ℕ) :
    (gridRow view size row).length = size := by
  simp [gridRow]

lemma generateGrid_length (size : ℕ) (view : FractalView) :
    (generateGrid size view).length = size * size := by
  simp only [generateGrid, List.length_flatMap, Function.comp_def, gridRow_length,
    List.map_const', List.length_range, List.sum_replicate, smul_eq_mul]

/-- C5: the grid generator produces `N²` (pixel, sample) pairs in row-major
order: the pair at index `row · N + col` is `((row, col), sample)` with the
affine sample formulas of the selected view; in particular entry 0 is
`((0,0), (-2.5, -2))` and `generateGrid 4 EntireSet` has entry 1
`((0,1), (-2.5, -1))`. -/
theorem grid_generator_spec (N : ℕ) (hN : 1 ≤ N) (view : FractalView) :
    (generateGrid N view).length = N * N ∧
    (∀ row col : ℕ, row < N → col < N →
      (generateGrid N view)[row * N + col]? =
        some ((row, col),
          match view with
          | .EntireSet => ⟨-2.5 + 4 * row / N, -2 + 4 * col / N⟩
          | .LeftSpike => ⟨-1.7 + 0.25 * row / N, -0.125 + 0.25 * col / N⟩)) ∧
    (generateGrid N .EntireSet)[0]? = some ((0, 0), ⟨-2.5, -2⟩) ∧
    (generateGrid 4 .EntireSet)[1]? = some ((0, 1), ⟨-2.5, -1⟩) := by
  have hget : ∀ (v : FractalView) (row col : ℕ), row < N → col < N →
      (generateGrid N v)[row * N + col]? =
        some ((row, col), samplePoint v N row col) := by
    intro v row col hr hc
    rw [generateGrid,
      flatMap_uniform_getElem? (gridRow v N) N (gridRow_length v N) _ row col hc
        (by simpa using hr)]
    simp [gridRow, hc]
  refine ⟨generateGrid_length N view, ?_, ?_, by with_unfolding_all decide⟩
  · intro row col hr hc
    rw [hget view row col hr hc]
    cases view <;> simp [samplePoint]
  · have := hget .EntireSet 0 0 hN hN
    simpa [samplePoint] using this

/-- Closed instance of `grid_generator_spec` at `N = 4`. -/
theorem grid_generator_spec_witness :
    (generateGrid 4 .EntireSet).length = 4 * 4 ∧
    (generateGrid 4 .EntireSet)[1]? = some ((0, 1), ⟨-2.5, -1⟩) :=
  ⟨(grid_generator_spec 4 (by decide) .EntireSet).1,
   (grid_generator_spec 4 (by decide) .EntireSet).2.2.2⟩

/-- C6: the origin's orbit never exceeds squared magnitude 4, and the kernel
classifies the origin as inside the set (count 0). -/
theorem kernel_at_origin :
    calculateMandelbrot ⟨0, 0⟩ = 0 ∧
    ∀ n : ℕ, normSq (orbit ⟨0, 0⟩ n) ≤ 4 := by
  have hz : ∀ n : ℕ, orbit ⟨0, 0⟩ n = ⟨0, 0⟩ := by
    intro n
    induction n with
    | zero => rfl
    | succ n ih => simp [orbit, ih, csq, cadd]
  refine ⟨by with_unfolding_all decide, fun n => ?_⟩
  rw [hz n]
  show (0 : ℚ) * 0 + 0 * 0 ≤ 4
  norm_num

/-! ### The render session -/

lemma renderTrace_getLast (env : Option BuildFailure) (elapsedNanos : ℕ)
    (s : WidgetState) :
    (renderTrace env elapsedNanos s).getLast (by simp [renderTrace]) =
      renderBody env elapsedNanos s := rfl

/-- C7: on entry to a render the previous diagnostic text is cleared and the
done flag is false; every state of the render body's trace before the final
one still has `done = false`; any trace state with `done = true` already
carries the published image and timing text; the final state has
`done = true`; and `rendering()` is the negation of the done flag. -/
theorem render_session_discipline (s : WidgetState) (env : Option BuildFailure)
    (elapsedNanos : ℕ) :
    (rerenderEntry s).doneRendering = false ∧
    (rerenderEntry s).debugText = "" ∧
    (∀ t ∈ (renderTrace env elapsedNanos (rerenderEntry s)).dropLast,
      t.doneRendering = false) ∧
    (∀ t ∈ renderTrace env elapsedNanos (rerenderEntry s),
      t.doneRendering = true →
        t.image = (renderBody env elapsedNanos (rerenderEntry s)).image ∧
        t.debugText = (renderBody env elapsedNanos (rerenderEntry s)).debugText) ∧
    (renderBody env elapsedNanos (rerenderEntry s)).doneRendering = true ∧
    (∀ t : WidgetState, rendering t = !t.doneRendering) := by
  refine ⟨rfl, rfl, ?_, ?_, rfl, fun t => rfl⟩
  · intro t ht
    simp only [renderTrace, List.dropLast] at ht
    rcases List.mem_cons.mp ht with rfl | ht
    · rfl
    rcases List.mem_cons.mp ht with rfl | ht
    · rfl
    rcases List.mem_cons.mp ht with rfl | ht
    · rfl
    exact absurd ht (List.not_mem_nil t)
  · intro t ht hdone
    simp only [renderTrace] at ht
    rcases List.mem_cons.mp ht with rfl | ht
    · exact absurd hdone (by simp [rerenderEntry])
    rcases List.mem_cons.mp ht with rfl | ht
    · exact absurd hdone (by simp [rerenderEntry])
    rcases List.mem_cons.mp ht with rfl | ht
    · exact absurd hdone (by simp [rerenderEntry])
    rcases List.mem_cons.mp ht with rfl | ht
    · exact ⟨rfl, rfl⟩
    exact absurd ht (List.not_mem_nil t)

/-- Closed instance of `render_session_discipline`: the final trace state of a
concrete render carries the published image and has `done = true`. -/
theorem render_session_discipline_witness :
    (renderBody none 0 (rerenderEntry sampleState)).image =
      (renderBody none 0 (rerenderEntry sampleState)).image ∧
    (renderBody none 0 (rerenderEntry sampleState)).doneRendering = true :=
  ⟨((render_session_discipline sampleState none 0).2.2.2.1
      (renderBody none 0 (rerenderEntry sampleState))
      (renderTrace_getLast none 0 (rerenderEntry sampleState) ▸
        List.getLast_mem (by simp [renderTrace]))
      (render_session_discipline sampleState none 0).2.2.2.2.1).1,
   (render_session_discipline sampleState none 0).2.2.2.2.1⟩

/-- C3: a device program build failure is caught below the session boundary:
the four diagnostics are surfaced, the Result Vector is the zero fill of the
grid's length, the session still reaches `done = true`, and every published
pixel is black. -/
theorem gpu_build_failure_handled (f : BuildFailure) (s : WidgetState)
    (hrt : s.renderType = .Gpu) (elapsedNanos : ℕ) :
    renderDiagnostics (some f) s =
      [f.buildLog, f.what, toString f.errorCode, f.errorString] ∧
    renderDiagnostics (some f) s ≠ [] ∧
    (evaluateWith s.renderType (some f) (gridPoints s.size s.view)).1 =
      List.replicate (gridPoints s.size s.view).length 0 ∧
    (renderBody (some f) elapsedNanos (rerenderEntry s)).doneRendering = true ∧
    (∀ p ∈ (renderBody (some f) elapsedNanos (rerenderEntry s)).image,
      p.2 = ⟨0, 0, 0⟩) := by
  have hdiag : renderDiagnostics (some f) s =
      [f.buildLog, f.what, toString f.errorCode, f.errorString] := by
    simp [renderDiagnostics, evaluateWith, hrt, gpuEvaluateCaught]
  refine ⟨hdiag, by rw [hdiag]; simp, ?_, rfl, ?_⟩
  · simp [evaluateWith, hrt, gpuEvaluateCaught]
  · intro p hp
    have himg : (renderBody (some f) elapsedNanos (rerenderEntry s)).image =
        paint s.renderType (gridPixels s.size s.view)
          (List.replicate (gridPoints s.size s.view).length 0) := by
      show paint s.renderType (gridPixels s.size s.view)
          (evaluateWith s.renderType (some f) (gridPoints s.size s.view)).1 = _
      rw [show (evaluateWith s.renderType (some f)
          (gridPoints s.size s.view)).1 =
        List.replicate (gridPoints s.size s.view).length 0 by
          simp [evaluateWith, hrt, gpuEvaluateCaught]]
    rw [himg] at hp
    have hsnd := (List.of_mem_zip hp).2
    rw [List.map_replicate] at hsnd
    have := List.eq_of_mem_replicate hsnd
    rw [this]
    simp [colorFor]

/-- Closed instance of `gpu_build_failure_handled` at a concrete failure and
Gpu session. -/
theorem gpu_build_failure_handled_witness :
    renderDiagnostics (some sampleFailure) gpuSampleState ≠ [] ∧
    (renderBody (some sampleFailure) 0 (rerenderEntry gpuSampleState)).doneRendering
      = true :=
  ⟨(gpu_build_failure_handled sampleFailure gpuSampleState rfl 0).2.1,
   (gpu_build_failure_handled sampleFailure gpuSampleState rfl 0).2.2.2.1⟩

/-! ### Colour mapping -/

/-- C9: escape count 0 is painted black under every strategy; for counts in
1..100 the divisor-4 channel is at least 192 (single-threaded red, no offset)
resp. at least 142 (multi-threaded green and device blue, offset 50), so the
colour is never black. -/
theorem color_mapping_spec (rt : RenderType) (count : ℕ)
    (h1 : 1 ≤ count) (h2 : count ≤ 100) :
    (∀ rt' : RenderType, colorFor rt' 0 = ⟨0, 0, 0⟩) ∧
    192 ≤ (colorFor .CpuSingleThread count).r ∧
    142 ≤ (colorFor .CpuMultiThread count).g ∧
    142 ≤ (colorFor .Gpu count).b ∧
    colorFor rt count ≠ ⟨0, 0, 0⟩ := by
  have hne : ¬(count = 0) := by omega
  have hk : 255 / count ≤ 255 := Nat.div_le_self 255 count
  have hs : 192 ≤ (colorFor .CpuSingleThread count).r := by
    simp only [colorFor, if_neg hne, div08]
    omega
  have hm : 142 ≤ (colorFor .CpuMultiThread count).g := by
    simp only [colorFor, if_neg hne, div08]
    omega
  have hg : 142 ≤ (colorFor .Gpu count).b := by
    simp only [colorFor, if_neg hne, div08]
    omega
  refine ⟨fun rt' => by simp [colorFor], hs, hm, hg, ?_⟩
  cases rt with
  | CpuSingleThread => intro heq; rw [heq] at hs; simp at hs
  | CpuMultiThread => intro heq; rw [heq] at hm; simp at hm
  | Gpu => intro heq; rw [heq] at hg; simp at hg

/-- Closed instance of `color_mapping_spec` at count 1. -/
theorem color_mapping_spec_witness :
    (1 ≤ 1 ∧ (1 : ℕ) ≤ 100) ∧ colorFor .CpuSingleThread 1 ≠ ⟨0, 0, 0⟩ :=
  ⟨⟨le_refl 1, by omega⟩,
   (color_mapping_spec .CpuSingleThread 1 (le_refl 1) (by omega)).2.2.2.2⟩

/-! ### setView and boundary viewport sizes -/

/-- C10: `setView` only records the chosen view: every other state component
is unchanged, `rendering()` is unaffected, and the recorded view is what the
next `rerender` samples from. -/
theorem setView_only_records_view (s : WidgetState) (v : FractalView) :
    setView s v = { s with view := v } ∧
    (setView s v).view = v ∧
    (setView s v).doneRendering = s.doneRendering ∧
    (setView s v).debugText = s.debugText ∧
    (setView s v).image = s.image ∧
    (setView s v).renderType = s.renderType ∧
    (setView s v).size = s.size ∧
    rendering (setView s v) = rendering s ∧
    gridPoints (setView s v).size (setView s v).view = gridPoints s.size v :=
  ⟨rfl, rfl, rfl, rfl, rfl, rfl, rfl, rfl, rfl⟩

/-- C8, counterexample to "N = 0 is rejected": a viewport of size 0 is not
rejected anywhere — the grid loop runs zero iterations, the strategies return
an empty Result Vector, and the session completes normally. -/
theorem zero_viewport_not_rejected :
    generateGrid 0 .EntireSet = [] ∧
    evaluate .CpuSingleThread (gridPoints 0 .EntireSet) = [] ∧
    (renderBody none 0
      (rerenderEntry ⟨.CpuSingleThread, 0, false, "", [], .EntireSet⟩)).doneRendering
      = true :=
  ⟨rfl, rfl, rfl⟩

/-- C8 (amended): for N = 1 the grid is the single point at pixel (0,0) and
every strategy returns a Result Vector of length 1; for N = 0 the grid loop
produces no points (and hence never evaluates the affine mapping whose
denominator is N), and every strategy returns an empty Result Vector. -/
theorem singleton_and_empty_grid (rt : RenderType) (view : FractalView) :
    generateGrid 1 view = [((0, 0), samplePoint view 1 0 0)] ∧
    (evaluate rt (gridPoints 1 view)).length = 1 ∧
    generateGrid 0 view = [] ∧
    evaluate rt (gridPoints 0 view) = [] := by
  have h1 : generateGrid 1 view = [((0, 0), samplePoint view 1 0 0)] := by
    simp [generateGrid, gridRow, List.range_succ]
  refine ⟨h1, ?_, rfl, ?_⟩
  · rw [evaluate_eq_map]
    simp [gridPoints, h1]
  · cases rt <;> rfl

example : calculateMandelbrot ⟨0, 0⟩ = 0 := by with_unfolding_all decide
example : calculateMandelbrot ⟨3, 0⟩ = 1 := by with_unfolding_all decide
example : calculateMandelbrot ⟨-2.5, -2⟩ = 1 := by with_unfolding_all decide
example : calculateMandelbrotCompute ⟨0, 0⟩ = 0 := by with_unfolding_all decide
example : calculateMandelbrot ⟨1, 1⟩ = calculateMandelbrotCompute ⟨1, 1⟩ := by
  with_unfolding_all decide
example : generateGrid 2 .EntireSet =
    [((0, 0), ⟨-2.5, -2⟩), ((0, 1), ⟨-2.5, 0⟩),
     ((1, 0), ⟨-0.5, -2⟩), ((1, 1), ⟨-0.5, 0⟩)] := by with_unfolding_all decide
example : colorFor .CpuSingleThread 1 = ⟨192, 0, 0⟩ := by decide
example : colorFor .CpuMultiThread 1 = ⟨0, 142, 0⟩ := by decide
example : colorFor .Gpu 100 = ⟨203, 203, 205⟩ := by decide

end MandelbrotBench
